import Mathlib

/-!
A shallow embedding of the agent control loop, the transport retry logic, the
browser tools and the storage bounds of the Hobbs browser-extension repository
(the `AIAgent` and `BackgroundScript` classes, `src/content/browserTools.js`
and `src/utils/storage.js`), together with theorems settling the specification
claims about them.

Modelling conventions:
* JavaScript strings become `String`; fields that can be `undefined` become
  `Option`.
* Wall-clock timestamps (`Date.now()`, `new Date().toISOString()`) carry no
  logical content and are omitted from the embedded records, as are the
  auto-generated random item ids.
* Effects on the browser (tab navigation, content-script execution, message
  delivery, the DOM) are environment behaviour: each loop iteration receives
  the oracle response and the action outcome from an environment function,
  and each transport attempt receives its outcome from an environment
  function indexed by the attempt number.
* `sendUpdate` calls are collected, in emission order, into a list of events.
* The `while` loop of `agentLoop` is embedded with an explicit iteration
  budget equal to `maxSteps - stepCount` at entry; since every iteration
  increments `stepCount` by exactly one, the budget runs out exactly when the
  loop guard `stepCount < maxSteps` fails (proved in `agentLoopWhile_spec`),
  so the embedding computes the same result as the original loop.
-/

namespace Hobbs

/-- JavaScript `String.prototype.includes`: `pat` occurs as a substring of `s`. -/
def jsIncludes (s pat : String) : Bool :=
  (List.range (s.toList.length + 1)).any (fun i => pat.toList.isPrefixOf (s.toList.drop i))

/-- One pass of the JavaScript replacement `replace(/\s+/g, ' ')`: `prevWs`
records whether the previously read character was whitespace, so that a
whitespace run contributes a single space. -/
def collapseWsAux : Bool → List Char → List Char
  | _, [] => []
  | prevWs, c :: cs =>
    if c.isWhitespace then
      if prevWs then collapseWsAux true cs
      else ' ' :: collapseWsAux true cs
    else c :: collapseWsAux false cs

/-- JavaScript `String.prototype.trim` on a character list. -/
def jsTrimList (l : List Char) : List Char :=
  ((l.dropWhile Char.isWhitespace).reverse.dropWhile Char.isWhitespace).reverse

/-- JavaScript `String.prototype.trim`. -/
def jsTrim (s : String) : String :=
  String.mk (jsTrimList s.toList)

/-- The normalisation `text.replace(/\s+/g, ' ').trim()` used by
`BrowserTools.extractText`. -/
def collapseWs (s : String) : String :=
  String.mk (jsTrimList (collapseWsAux false s.toList))

/-- JavaScript `substring(0, n)`; length is counted in characters (the
original counts UTF-16 units, which agree on the texts considered here). -/
def strTake (s : String) (n : Nat) : String :=
  String.mk (s.toList.take n)

/-- One role-tagged message of the conversation transcript. -/
structure ChatMessage where
  role : String
  content : String
deriving Repr, DecidableEq

/-- One progress event sent by `sendUpdate` (the `timestamp` field of the
original is wall-clock time and is omitted). -/
structure AgentUpdate where
  type : String
  message : String
deriving Repr, DecidableEq

/-- One decision proposed by the planner oracle (the parsed arguments of a
`browser_action` tool call). -/
structure Decision where
  action : String
  target : Option String := none
  text : Option String := none
  reasoning : String := ""
  summary : Option String := none
deriving Repr, DecidableEq

/-- One entry of `AIAgent.actionHistory`, as built by `recordAction`
(`timestamp` omitted). -/
structure ActionRecord where
  action : String
  target : Option String
  text : Option String
  step : Nat
deriving Repr, DecidableEq

/-- The structured outcome of executing one decision. -/
structure ActionResult where
  success : Bool
  message : Option String := none
  error : Option String := none
  data : Option String := none
  url : Option String := none
deriving Repr, DecidableEq

/-- The mutable fields of the `AIAgent` instance. -/
structure AgentState where
  isRunning : Bool
  currentTask : Option String
  stepCount : Nat
  maxSteps : Nat
  conversationHistory : List ChatMessage
  lastAction : Option ActionRecord
  actionHistory : List ActionRecord
  consecutiveFailures : Nat
deriving Repr, DecidableEq

/-- A tool call extracted from the oracle response by `OpenAIClient.chat`. -/
structure ToolCall where
  name : String
  arguments : Decision
deriving Repr, DecidableEq

/-- The oracle response as seen by `AIAgent.think`: either a successful chat
response carrying an optional tool call, or a failed one (`response.success`
false, which makes `think` throw). -/
inductive OracleResponse where
  | success (tool : Option ToolCall)
  | failure (error : String)
deriving Repr, DecidableEq

/-- Environment input consumed by one loop iteration: the oracle response for
THINK and the outcome of ACT (a thrown error models the 10-second timeout
race rejection or a transport throw; navigation and content-script results
are likewise environment-determined). -/
structure StepInput where
  oracle : OracleResponse
  actResult : Except String ActionResult

/-! ## Storage bounds (`src/utils/storage.js`) -/

/-- One record of the successful-items list, as built by `addSuccessfulItem`
from `itemData` (the `id` and `timestamp` fields are clock- and
randomness-derived and omitted). -/
structure StoredItem where
  site : String
  name : String
  price : Option String
  image : Option String
  url : Option String
  category : Option String
  originalRequest : Option String
deriving Repr, DecidableEq

/-- `StorageManager.addSuccessfulItem`: `unshift` the new item, then keep only
the first 50 (`slice(0, 50)`). The argument is the stored list read back from
the key-value store; the result is the list written to it. -/
def StorageManager.addSuccessfulItem (existingItems : List StoredItem)
    (newItem : StoredItem) : List StoredItem :=
  (newItem :: existingItems).take 50

/-- `StorageManager.saveChatHistory`: keep only the last 100 messages
(`slice(-100)`); the result is the list written to the store. -/
def StorageManager.saveChatHistory (messages : List ChatMessage) : List ChatMessage :=
  messages.drop (messages.length - 100)

/-! ## Browser tools (`src/content/browserTools.js`) -/

/-- One input descriptor of the page summary (`type`, `placeholder`,
`aria-label`-or-`name`). -/
structure InputDescriptor where
  type : String
  placeholder : String
  label : String
deriving Repr, DecidableEq

/-- The structured page summary returned alongside extracted text. -/
structure PageInfo where
  title : String
  url : String
  headings : List String
  buttons : List String
  links : List String
  inputs : List InputDescriptor
deriving Repr, DecidableEq

/-- The DOM as consulted by `extractText`: `queryAll` gives the `textContent`
of the elements matching a selector; the node lists give the raw
`textContent` (for buttons, `textContent`-or-`value`) of the summary queries,
and the input descriptors. -/
structure DomDocument where
  title : String
  url : String
  queryAll : String → List String
  headingNodes : List String
  buttonNodes : List String
  linkNodes : List String
  inputNodes : List InputDescriptor

/-- The object returned by `BrowserTools.extractText`. -/
structure ExtractResult where
  success : Bool
  message : Option String := none
  error : Option String := none
  selector : String
  text : Option String := none
  pageInfo : Option PageInfo := none
deriving Repr, DecidableEq

/-- `BrowserTools.extractText`: fail when no element matches, otherwise join
the whitespace-collapsed non-empty texts with blank lines, truncate to 5000
units, and attach the page summary (up to 10 headings, buttons, links and
input descriptors; the heading/button/link entries are trimmed and the empty
ones dropped by `filter(Boolean)`). -/
def BrowserTools.extractText (doc : DomDocument) (selector : String) : ExtractResult :=
  let elements := doc.queryAll selector
  if elements.length = 0 then
    { success := false, error := some ("No elements found: " ++ selector),
      selector := selector }
  else
    let extractedText :=
      String.intercalate "\n\n"
        ((elements.map collapseWs).filter (fun t => decide (0 < t.length)))
    let pageInfo : PageInfo :=
      { title := doc.title
        url := doc.url
        headings := (((doc.headingNodes.map jsTrim).filter (fun t => t != ""))).take 10
        buttons := (((doc.buttonNodes.map jsTrim).filter (fun t => t != ""))).take 10
        links := (((doc.linkNodes.map jsTrim).filter (fun t => t != ""))).take 10
        inputs := doc.inputNodes.take 10 }
    { success := true, message := some ("Extracted text from: " ++ selector),
      selector := selector, text := some (strTake extractedText 5000),
      pageInfo := some pageInfo }

/-! ## Transport retry (`BackgroundScript.sendMessageToTab`) -/

/-- Outcome of one `chrome.tabs.sendMessage` attempt: the callback resolved
with a response, or `chrome.runtime.lastError` made the attempt reject. -/
inductive AttemptOutcome where
  | ok (response : ActionResult)
  | err (message : String)

/-- The trace of one delivery attempt: its 1-based number, whether the
content script was re-injected after its failure, and the backoff delay slept
before the next attempt (none on a resolved or final attempt). -/
structure TransportAttempt where
  index : Nat
  reinjected : Bool
  delayAfter : Option Nat
deriving Repr, DecidableEq

/-- The stale-execution-context test of `sendMessageToTab`. -/
def isCacheError (e : String) : Bool :=
  jsIncludes e "back/forward cache" || jsIncludes e "Receiving end does not exist"

/-- The progressive backoff of `sendMessageToTab`:
`Math.min(1000 * Math.pow(2, attempt - 1), 5000)`. -/
def backoffDelay (attempt : Nat) : Nat :=
  min (1000 * 2 ^ (attempt - 1)) 5000

/-- The body of the `for (attempt = 1; attempt <= maxRetries; attempt++)` loop
of `sendMessageToTab`. `remaining` counts the attempts still allowed
(including the current one), so `remaining = 0` inside the match corresponds
to `attempt === maxRetries`, where the error is re-thrown. A failing attempt
whose error is cache-related records a re-injection before the backoff sleep. -/
def BackgroundScript.sendMessageAttempts (env : Nat → AttemptOutcome) :
    Nat → Nat → Except String ActionResult × List TransportAttempt
  | 0, _ => (Except.error "no attempts allowed", [])
  | remaining + 1, attempt =>
    match env attempt with
    | AttemptOutcome.ok r => (Except.ok r, [⟨attempt, false, none⟩])
    | AttemptOutcome.err e =>
      let reinject := isCacheError e
      if remaining = 0 then (Except.error e, [⟨attempt, reinject, none⟩])
      else
        let rest := BackgroundScript.sendMessageAttempts env remaining (attempt + 1)
        (rest.1, ⟨attempt, reinject, some (backoffDelay attempt)⟩ :: rest.2)

/-- `BackgroundScript.sendMessageToTab` with its default `maxRetries = 5`,
starting from attempt 1. -/
def BackgroundScript.sendMessageToTab (env : Nat → AttemptOutcome) :
    Except String ActionResult × List TransportAttempt :=
  BackgroundScript.sendMessageAttempts env 5 1

/-! ## The agent (`AIAgent`) -/

/-- `lastAction.action === functionCall.action && lastAction.target === functionCall.target`. -/
def sameActionAndTarget (a : ActionRecord) (functionCall : Decision) : Bool :=
  a.action == functionCall.action && a.target == functionCall.target

/-- `AIAgent.isRepeatingAction`: the proposed call matches `lastAction`
exactly, or it matches at least one of the last two recorded actions
(`actionHistory.slice(-2)`). -/
def AgentState.isRepeatingAction (s : AgentState) (functionCall : Decision) : Bool :=
  (match s.lastAction with
   | some la => sameActionAndTarget la functionCall
   | none => false)
  ||
  (let recentActions := s.actionHistory.drop (s.actionHistory.length - 2)
   let sameActionCount := (recentActions.filter (fun a => sameActionAndTarget a functionCall)).length
   decide (1 ≤ sameActionCount))

/-- `AIAgent.recordAction`: build the record, set `lastAction`, append to
`actionHistory` and keep only the last 10 entries. -/
def AgentState.recordAction (s : AgentState) (functionCall : Decision) : AgentState :=
  let actionRecord : ActionRecord :=
    { action := functionCall.action, target := functionCall.target,
      text := functionCall.text, step := s.stepCount }
  let h := s.actionHistory ++ [actionRecord]
  { s with lastAction := some actionRecord,
           actionHistory := if 10 < h.length then h.drop (h.length - 10) else h }

/-- The fallback decision substituted by `think` when the response carries no
`browser_action` tool call. -/
def fallbackDecision : Decision :=
  { action := "extract_text", target := some "body", text := none,
    reasoning := "No tool call received, extracting page content to understand current state",
    summary := none }

/-- The loop-detection rewrite inside `AIAgent.think`: a repeated `open` or
`click` becomes `extract_text` on `body`, a repeated `extract_text` becomes
`finish`; any other repeated action is left unchanged (no branch matches). -/
def loopGuardRewrite (functionCall : Decision) : Decision :=
  if functionCall.action == "open" then
    { action := "extract_text", target := some "body", text := none,
      reasoning := "Already navigated, now extracting page content to proceed with task",
      summary := none }
  else if functionCall.action == "click" then
    { action := "extract_text", target := some "body", text := none,
      reasoning := "Previous click failed, extracting page content to understand current state and find alternative approach",
      summary := none }
  else if functionCall.action == "extract_text" then
    { action := "finish", target := none, text := none,
      reasoning := "Preventing loop by finishing task",
      summary := some "Task appears complete based on previous actions" }
  else functionCall

/-- The `thinking` update emitted at the top of `AIAgent.think`. -/
def thinkingUpdate : AgentUpdate :=
  ⟨"thinking", "🤔 Thinking about next action..."⟩

/-- `AIAgent.think`: emit the thinking update, throw when the chat call
failed, otherwise take the `browser_action` tool-call arguments (or the
fallback decision), apply the loop-detection rewrite, record the action and
emit the reasoning update. -/
def AIAgent.think (s : AgentState) (resp : OracleResponse) :
    List AgentUpdate × Except String (AgentState × Decision) :=
  match resp with
  | OracleResponse.failure err =>
      ([thinkingUpdate], Except.error ("AI thinking failed: " ++ err))
  | OracleResponse.success tool =>
      let functionCall :=
        match tool with
        | some tc => if tc.name == "browser_action" then tc.arguments else fallbackDecision
        | none => fallbackDecision
      let functionCall :=
        if s.isRepeatingAction functionCall then loopGuardRewrite functionCall
        else functionCall
      ([thinkingUpdate, ⟨"thinking", "💭 " ++ functionCall.reasoning⟩],
       Except.ok (s.recordAction functionCall, functionCall))

/-- `AIAgent.getActionMessage`. -/
def AIAgent.getActionMessage (thinking : Decision) : String :=
  let emoji :=
    if thinking.action == "open" then "🌐"
    else if thinking.action == "click" then "👆"
    else if thinking.action == "type" then "⌨️"
    else if thinking.action == "extract_text" then "📄"
    else if thinking.action == "finish" then "✅"
    else "🔧"
  let m := emoji ++ " " ++ thinking.action
  let m := match thinking.target with | some t => m ++ ": " ++ t | none => m
  match thinking.text with | some t => m ++ " (\"" ++ t ++ "\")" | none => m

/-- `AIAgent.act`: emit the action update; the outcome of the navigation or
content-script execution (including the 10-second timeout rejection) is
environment behaviour taken from the step input. -/
def AIAgent.act (thinking : Decision) (inp : StepInput) :
    List AgentUpdate × Except String ActionResult :=
  ([⟨"action", AIAgent.getActionMessage thinking⟩], inp.actResult)

/-- `AIAgent.getNextActionSuggestion`. -/
def AgentState.getNextActionSuggestion (s : AgentState) : String :=
  match s.lastAction with
  | none => "Try extracting page content to understand what\x27s available."
  | some la =>
    if la.action == "click" then
      if (match la.target with
          | some t => jsIncludes t "search" || jsIncludes t "btn" || jsIncludes t "submit"
          | none => false) then
        "The search button click failed. Try extracting page content to see if the search was successful, or try pressing Enter in the search box instead."
      else
        "The click failed. Try extract_text to see what\x27s available on the page, or try a different selector."
    else if la.action == "type" then
      "The typing failed. Try extracting page content to see if the input field is available, or try a different selector."
    else if la.action == "extract_text" then
      "Text extraction failed. Try a different selector or approach."
    else
      "Try a different approach or extract page content to understand what\x27s available."

/-- `lastAction && lastAction.action === 'click' && lastAction.target.includes('submit')`.
In the runs considered a recorded click always carries a target (the original
would throw on a missing one), so a missing target is modelled as `false`. -/
def isSubmitClick : Option ActionRecord → Bool
  | some a =>
      a.action == "click" &&
        (match a.target with | some t => jsIncludes t "submit" | none => false)
  | none => false

/-- The transcript entry appended at the end of `observe`
(`message || error` empty-string falsiness is not exercised here). -/
def resultMessage (r : ActionResult) : ChatMessage :=
  ⟨"user",
   "Action result: " ++ (if r.success then "SUCCESS" else "FAILED") ++ ". " ++
     (match r.message with | some m => m | none => r.error.getD "undefined") ++
     (match r.data with | some d => " Data: " ++ d | none => "")⟩

/-- `AIAgent.observe`: on success reset the failure counter and, after a
submit-like click, inject the search-success note; on failure first apply the
timeout-as-possible-success adjustment (note plus decrement clamped at 0),
then increment the counter, inject the corrective suggestion (counter ≥ 1)
and the finish directive (counter ≥ 2, also emitting the too-many-failures
update); finally emit the observation update and append the result message. -/
def AgentState.observe (s : AgentState) (r : ActionResult) :
    AgentState × List AgentUpdate :=
  if r.success then
    let observationMessage :=
      "👁️ Success: " ++ r.message.getD "undefined" ++
        (match r.data with
         | some d => " | Data: " ++ strTake d 100 ++ "..."
         | none => "")
    let note : List ChatMessage :=
      if isSubmitClick s.lastAction then
        [⟨"system", "Search button click was successful! The search has been submitted. Now extract the page content to see the search results and proceed with the task."⟩]
      else []
    ({ s with consecutiveFailures := 0,
              conversationHistory := s.conversationHistory ++ note ++ [resultMessage r] },
     [⟨"observation", observationMessage⟩])
  else
    let timeoutSubmit :=
      (match r.error with | some e => jsIncludes e "timeout" | none => false) &&
        isSubmitClick s.lastAction
    let timeoutNote : List ChatMessage :=
      if timeoutSubmit then
        [⟨"system", "Search button click timed out, but this often means the search was submitted successfully. Extract the page content to see if search results are displayed."⟩]
      else []
    let cfAfterTimeout :=
      if timeoutSubmit then s.consecutiveFailures - 1 else s.consecutiveFailures
    let observationMessage := "❌ Failed: " ++ r.error.getD "undefined"
    let cf := cfAfterTimeout + 1
    let suggestionNote : List ChatMessage :=
      if 1 ≤ cf then
        [⟨"system", "Action failed: " ++ r.error.getD "undefined" ++ ". " ++ s.getNextActionSuggestion⟩]
      else []
    let finishNote : List ChatMessage :=
      if 2 ≤ cf then
        [⟨"system", "Too many failures. Please use the finish action to complete what you can or explain what went wrong."⟩]
      else []
    let failUpdates : List AgentUpdate :=
      if 2 ≤ cf then
        [⟨"system", "⚠️ Too many consecutive failures, attempting to complete task"⟩]
      else []
    ({ s with consecutiveFailures := cf,
              conversationHistory :=
                s.conversationHistory ++ timeoutNote ++ suggestionNote ++ finishNote ++
                  [resultMessage r] },
     failUpdates ++ [⟨"observation", observationMessage⟩])

/-- The single update emitted by `stopTask`. -/
def taskAbortedUpdate : AgentUpdate :=
  ⟨"task_aborted", "🛑 Task aborted by user"⟩

/-- `AIAgent.stopTask`: clear all task state (the conversation transcript is
not cleared by the original either) and emit the `task_aborted` update. -/
def AgentState.stopTask (s : AgentState) : AgentState × AgentUpdate :=
  ({ s with isRunning := false, currentTask := none, stepCount := 0,
            lastAction := none, actionHistory := [], consecutiveFailures := 0 },
   taskAbortedUpdate)

/-- The update emitted after the loop when the step budget was exhausted. -/
def maxStepsUpdate : AgentUpdate :=
  ⟨"system", "⏰ Task reached maximum steps limit"⟩

/-- The corrective transcript entry pushed by the per-step `catch`. -/
def stepErrorMessage (e : String) : ChatMessage :=
  ⟨"system", "Error occurred: " ++ e ++ ". Try a different approach."⟩

/-- The `while (isRunning && stepCount < maxSteps)` loop of `agentLoop`,
returning the final state, the emitted updates in order, and the number of
iterations performed. The first argument of the recursion is the iteration
budget (`maxSteps - stepCount` at entry, see the header comment); each
iteration increments `stepCount`, runs THINK, and either finishes (emitting
the completion update and stopping the task), or runs ACT and OBSERVE; a
throwing THINK or ACT is caught, emitting the step-failed update and pushing
corrective context, and the loop continues. The `if (!isRunning) break`
checks of the original never fire here because no external stop occurs
within a modelled step. -/
def AIAgent.agentLoopWhile (env : Nat → StepInput) :
    Nat → AgentState → AgentState × List AgentUpdate × Nat
  | 0, s => (s, [], 0)
  | fuel + 1, s =>
    if s.isRunning = true ∧ s.stepCount < s.maxSteps then
      let s₁ : AgentState := { s with stepCount := s.stepCount + 1 }
      let inp := env s.stepCount
      match AIAgent.think s₁ inp.oracle with
      | (tus, Except.error e) =>
          let s₂ := { s₁ with conversationHistory := s₁.conversationHistory ++ [stepErrorMessage e] }
          let rest := AIAgent.agentLoopWhile env fuel s₂
          (rest.1,
           tus ++ [⟨"system", "⚠️ Step " ++ toString s₁.stepCount ++ " failed: " ++ e⟩] ++ rest.2.1,
           rest.2.2 + 1)
      | (tus, Except.ok (st, thinking)) =>
          if thinking.action == "finish" then
            let stop := st.stopTask
            (stop.1,
             tus ++ [⟨"system", "✅ Task completed: " ++ thinking.summary.getD "undefined"⟩, stop.2],
             1)
          else
            match AIAgent.act thinking inp with
            | (aus, Except.error e) =>
                let s₂ := { st with conversationHistory := st.conversationHistory ++ [stepErrorMessage e] }
                let rest := AIAgent.agentLoopWhile env fuel s₂
                (rest.1,
                 tus ++ aus ++ [⟨"system", "⚠️ Step " ++ toString st.stepCount ++ " failed: " ++ e⟩] ++ rest.2.1,
                 rest.2.2 + 1)
            | (aus, Except.ok actionResult) =>
                let ob := st.observe actionResult
                let rest := AIAgent.agentLoopWhile env fuel ob.1
                (rest.1, tus ++ aus ++ ob.2 ++ rest.2.1, rest.2.2 + 1)
    else (s, [], 0)

/-- `AIAgent.agentLoop`: run the while loop, then, when the step counter
reached the budget, emit the maximum-steps update and stop the task. -/
def AIAgent.agentLoop (env : Nat → StepInput) (s : AgentState) :
    AgentState × List AgentUpdate × Nat :=
  let r := AIAgent.agentLoopWhile env (s.maxSteps - s.stepCount) s
  if r.1.maxSteps ≤ r.1.stepCount then
    let stop := r.1.stopTask
    (stop.1, r.2.1 ++ [maxStepsUpdate, stop.2], r.2.2)
  else r

/-- The system prompt seeded into the transcript by `startTask`; its full
rule-and-example text is immaterial to every claim and abbreviated here. -/
def getSystemPrompt : String :=
  "You are an AI browser automation agent. Your goal is to complete user tasks by controlling a web browser through available tools."

/-- The `task_started` update emitted by `startTask`. -/
def taskStartedUpdate (prompt : String) : AgentUpdate :=
  ⟨"task_started", "🤖 Starting task: \"" ++ prompt ++ "\""⟩

/-- The fresh state initialised by `AIAgent.startTask` (step budget 10). -/
def initialState (prompt : String) : AgentState :=
  { isRunning := true, currentTask := some prompt, stepCount := 0, maxSteps := 10,
    conversationHistory := [⟨"system", getSystemPrompt⟩, ⟨"user", prompt⟩],
    lastAction := none, actionHistory := [], consecutiveFailures := 0 }

/-- `AIAgent.startTask`: initialise the state, emit `task_started`, seed the
transcript and drive the loop to a terminal state. -/
def AIAgent.startTask (prompt : String) (env : Nat → StepInput) :
    AgentState × List AgentUpdate × Nat :=
  let r := AIAgent.agentLoop env (initialState prompt)
  (r.1, taskStartedUpdate prompt :: r.2.1, r.2.2)

/-! ## Specification predicate for runs of the while loop -/

/-- Properties of one run of `agentLoopWhile` from state `s` with iteration
budget `fuel`: the iteration count is bounded by the budget; `maxSteps` is
never modified; the step counter never exceeds the budget; and when the run
started in a running state, either it ends still running — having performed
exactly one step-counter increment per iteration, and having exited only via
the loop guard or the budget — or it ends stopped, with all task state
cleared by `stopTask` and the `task_aborted` update emitted last. -/
def LoopRunSpec (fuel : Nat) (s : AgentState)
    (out : AgentState × List AgentUpdate × Nat) : Prop :=
  out.2.2 ≤ fuel ∧
  out.1.maxSteps = s.maxSteps ∧
  (s.stepCount ≤ s.maxSteps → out.1.stepCount ≤ s.maxSteps) ∧
  (s.isRunning = true →
    (out.1.isRunning = true →
      out.1.stepCount = s.stepCount + out.2.2 ∧
        (out.2.2 = fuel ∨ s.maxSteps ≤ out.1.stepCount)) ∧
    (out.1.isRunning = false →
      out.1.currentTask = none ∧ out.1.stepCount = 0 ∧ out.1.lastAction = none ∧
      out.1.actionHistory = [] ∧ out.1.consecutiveFailures = 0 ∧
      ∃ us₀, out.2.1 = us₀ ++ [taskAbortedUpdate]))

/-! ## Concrete fixtures used by witnesses and counterexamples -/

/-- An oracle that always fails the chat call (and a trivially succeeding
environment for actions, which the failing runs never consult). -/
def envC1 : Nat → StepInput := fun _ =>
  { oracle := OracleResponse.failure "boom", actResult := Except.ok { success := true } }

/-- A recorded `type` action. -/
def laC2 : ActionRecord :=
  { action := "type", target := some "input#q", text := some "hello", step := 1 }

/-- The same `type` action proposed again by the oracle. -/
def dC2 : Decision :=
  { action := "type", target := some "input#q", text := some "hello",
    reasoning := "retry typing" }

/-- A state whose immediately preceding decision is `laC2`. -/
def sC2 : AgentState :=
  { isRunning := true, currentTask := some "t", stepCount := 2, maxSteps := 10,
    conversationHistory := [], lastAction := some laC2, actionHistory := [laC2],
    consecutiveFailures := 0 }

/-- A recorded `open` action. -/
def laC2w : ActionRecord :=
  { action := "open", target := some "https://example.com", text := none, step := 1 }

/-- The same `open` action proposed again by the oracle. -/
def dC2w : Decision :=
  { action := "open", target := some "https://example.com", reasoning := "go" }

/-- A state whose immediately preceding decision is `laC2w`. -/
def sC2w : AgentState :=
  { isRunning := true, currentTask := some "t", stepCount := 2, maxSteps := 10,
    conversationHistory := [], lastAction := some laC2w, actionHistory := [laC2w],
    consecutiveFailures := 0 }

/-- The updates emitted by `think` on the repeated-`open` fixture. -/
def tusC2w : List AgentUpdate :=
  [thinkingUpdate,
   ⟨"thinking", "💭 Already navigated, now extracting page content to proceed with task"⟩]

/-- A finish decision returned by the oracle. -/
def dFinishC3 : Decision :=
  { action := "finish", reasoning := "All done", summary := some "done" }

/-- An oracle that immediately returns the finish decision. -/
def envC3 : Nat → StepInput := fun _ =>
  { oracle := OracleResponse.success (some { name := "browser_action", arguments := dFinishC3 }),
    actResult := Except.ok { success := true } }

/-- The updates emitted by `think` on the finish fixture. -/
def tusC3 : List AgentUpdate :=
  [thinkingUpdate, ⟨"thinking", "💭 All done"⟩]

/-- The state after `think` records the finish decision on the fresh task. -/
def stC3 : AgentState :=
  AgentState.recordAction { initialState "Read the page" with stepCount := 1 } dFinishC3

/-- A recorded click on a submit-like target. -/
def laSubmit : ActionRecord :=
  { action := "click", target := some "button[type=submit]", text := none, step := 1 }

/-- A timed-out action result. -/
def rTimeoutFail : ActionResult :=
  { success := false, error := some "Action timeout after 10 seconds" }

/-- An ordinary failed action result. -/
def rPlainFail : ActionResult :=
  { success := false, error := some "Element not found: x" }

/-- A successful action result. -/
def rSuccessC4 : ActionResult :=
  { success := true, message := some "Clicked: button" }

/-- A state after a submit-like click, with `n` consecutive failures. -/
def submitClickState (n : Nat) : AgentState :=
  { isRunning := true, currentTask := some "t", stepCount := 2, maxSteps := 10,
    conversationHistory := [], lastAction := some laSubmit, actionHistory := [laSubmit],
    consecutiveFailures := n }

/-- A transport environment whose first attempt fails with a stale-context
error and whose second attempt resolves. -/
def envC7 : Nat → AttemptOutcome := fun n =>
  if n = 1 then AttemptOutcome.err "page in back/forward cache"
  else AttemptOutcome.ok { success := true }

/-- The first attempt recorded by the transport on `envC7`. -/
def attemptC7 : TransportAttempt :=
  { index := 1, reinjected := true, delayAfter := some 1000 }

/-- A small document fixture: one matched element, two headings, one of them
blank after trimming. -/
def docC8 : DomDocument :=
  { title := "Demo", url := "https://example.com",
    queryAll := fun sel => if sel == "body" then ["Hello   world \n twice"] else [],
    headingNodes := ["  Products ", "   "],
    buttonNodes := ["Add to cart"],
    linkNodes := ["Home"],
    inputNodes := [{ type := "text", placeholder := "Search", label := "q" }] }

/-- A stored item fixture. -/
def itemC10 : StoredItem :=
  { site := "sauce-demo", name := "Backpack", price := some "$29.99", image := none,
    url := none, category := none, originalRequest := some "add a backpack" }

/-- A chat transcript longer than the 100-message bound. -/
def msgsC10 : List ChatMessage :=
  List.replicate 150 ⟨"user", "m"⟩

/-! ## Helper lemmas -/

/-- A successful `think` never changes the lifecycle fields of the state:
`recordAction` touches only `lastAction` and `actionHistory`. -/
theorem think_ok_state {s : AgentState} {resp : OracleResponse}
    {tus : List AgentUpdate} {st : AgentState} {d : Decision}
    (h : AIAgent.think s resp = (tus, Except.ok (st, d))) :
    st.stepCount = s.stepCount ∧ st.maxSteps = s.maxSteps ∧
    st.isRunning = s.isRunning ∧ st.currentTask = s.currentTask := by
  cases resp with
  | failure e => simp [AIAgent.think] at h
  | success tool =>
    simp only [AIAgent.think, Prod.mk.injEq, Except.ok.injEq] at h
    obtain ⟨-, hst, -⟩ := h
    subst hst
    simp [AgentState.recordAction]

/-- `observe` never changes the lifecycle fields of the state. -/
theorem observe_state (s : AgentState) (r : ActionResult) :
    (s.observe r).1.stepCount = s.stepCount ∧ (s.observe r).1.maxSteps = s.maxSteps ∧
    (s.observe r).1.isRunning = s.isRunning ∧ (s.observe r).1.currentTask = s.currentTask := by
  unfold AgentState.observe
  split <;> simp

/-! ## Theorems for the claims about storage and browser tools -/

/-- C10: persisted bounded lists keep their bounds on every write: adding a
successful item inserts it at the front (newest first) and the stored list
never exceeds 50 items; saving chat history stores a suffix of the messages
of length at most 100 — exactly 100 (the most recent ones) when more were
given. -/
theorem C10_storage_bounds (existingItems : List StoredItem) (newItem : StoredItem)
    (messages : List ChatMessage) :
    (StorageManager.addSuccessfulItem existingItems newItem).length ≤ 50 ∧
    (StorageManager.addSuccessfulItem existingItems newItem).head? = some newItem ∧
    (StorageManager.saveChatHistory messages).length ≤ 100 ∧
    (StorageManager.saveChatHistory messages) <:+ messages ∧
    (100 ≤ messages.length → (StorageManager.saveChatHistory messages).length = 100) := by
  refine ⟨?_, ?_, ?_, ?_, ?_⟩
  · simp [StorageManager.addSuccessfulItem]
  · rfl
  · simp only [StorageManager.saveChatHistory, List.length_drop]
    omega
  · exact List.drop_suffix _ _
  · intro h
    simp only [StorageManager.saveChatHistory, List.length_drop]
    omega

/-- Witness for C10 at a 150-message transcript: exactly the most recent 100
are kept. -/
theorem C10_storage_bounds_witness :
    (StorageManager.saveChatHistory msgsC10).length = 100 :=
  (C10_storage_bounds [] itemC10 msgsC10).2.2.2.2 (by simp [msgsC10])

/-- C8: `extractText` fails with the no-elements error exactly when the
selector matches nothing; otherwise it succeeds with text of at most 5000
units and a page summary with at most 10 headings, buttons, links and input
descriptors. -/
theorem C8_extract_text (doc : DomDocument) (selector : String) :
    (doc.queryAll selector = [] →
       (BrowserTools.extractText doc selector).success = false ∧
       (BrowserTools.extractText doc selector).error =
         some ("No elements found: " ++ selector)) ∧
    (doc.queryAll selector ≠ [] →
       (BrowserTools.extractText doc selector).success = true ∧
       (∃ t, (BrowserTools.extractText doc selector).text = some t ∧ t.length ≤ 5000) ∧
       (∃ pi, (BrowserTools.extractText doc selector).pageInfo = some pi ∧
          pi.headings.length ≤ 10 ∧ pi.buttons.length ≤ 10 ∧
          pi.links.length ≤ 10 ∧ pi.inputs.length ≤ 10)) := by
  constructor
  · intro h
    simp [BrowserTools.extractText, h]
  · intro h
    have hl : ¬ (doc.queryAll selector).length = 0 := by
      simpa [List.length_eq_zero] using h
    simp only [BrowserTools.extractText]
    rw [if_neg hl]
    refine ⟨rfl, ⟨_, rfl, ?_⟩, ⟨_, rfl, ?_, ?_, ?_, ?_⟩⟩
    · simp only [strTake, String.length]
      simp
    · simp
    · simp
    · simp
    · simp

/-- Witness for C8 on a concrete document: the `body` selector matches, so
extraction succeeds. -/
theorem C8_extract_text_witness :
    (BrowserTools.extractText docC8 "body").success = true :=
  ((C8_extract_text docC8 "body").2 (by decide)).1

/-! ## Theorems for the transport claim -/

/-- Every run of the transport attempt loop performs at most `remaining`
attempts; each recorded delay equals the backoff formula at its attempt
number, and a failed attempt records a re-injection exactly when its error is
stale-context-related. -/
theorem sendMessageAttempts_spec (env : Nat → AttemptOutcome) :
    ∀ (remaining attempt : Nat),
      (BackgroundScript.sendMessageAttempts env remaining attempt).2.length ≤ remaining ∧
      ∀ a ∈ (BackgroundScript.sendMessageAttempts env remaining attempt).2,
        (∀ d, a.delayAfter = some d → d = backoffDelay a.index) ∧
        (∀ e, env a.index = AttemptOutcome.err e → a.reinjected = isCacheError e) := by
  intro remaining
  induction remaining with
  | zero =>
    intro attempt
    constructor
    · simp [BackgroundScript.sendMessageAttempts]
    · intro a ha
      simp [BackgroundScript.sendMessageAttempts] at ha
  | succ remaining ih =>
    intro attempt
    rcases he : env attempt with r | e
    · have hred : BackgroundScript.sendMessageAttempts env (remaining + 1) attempt
          = (Except.ok r, [⟨attempt, false, none⟩]) := by
        simp [BackgroundScript.sendMessageAttempts, he]
      rw [hred]
      constructor
      · simp
      · intro a ha
        simp only [List.mem_singleton] at ha
        subst ha
        constructor
        · intro d hd
          cases hd
        · intro e' he'
          rw [he] at he'
          cases he'
    · by_cases hz : remaining = 0
      · have hred : BackgroundScript.sendMessageAttempts env (remaining + 1) attempt
            = (Except.error e, [⟨attempt, isCacheError e, none⟩]) := by
          simp [BackgroundScript.sendMessageAttempts, he, hz]
        rw [hred]
        constructor
        · simp
        · intro a ha
          simp only [List.mem_singleton] at ha
          subst ha
          constructor
          · intro d hd
            cases hd
          · intro e' he'
            rw [he] at he'
            cases he'
            rfl
      · have hred : BackgroundScript.sendMessageAttempts env (remaining + 1) attempt
            = ((BackgroundScript.sendMessageAttempts env remaining (attempt + 1)).1,
               ⟨attempt, isCacheError e, some (backoffDelay attempt)⟩ ::
                 (BackgroundScript.sendMessageAttempts env remaining (attempt + 1)).2) := by
          simp [BackgroundScript.sendMessageAttempts, he, hz]
        rw [hred]
        obtain ⟨ihlen, ihmem⟩ := ih (attempt + 1)
        constructor
        · simpa using ihlen
        · intro a ha
          simp only [List.mem_cons] at ha
          rcases ha with ha | ha
          · subst ha
            constructor
            · intro d hd
              simp only [Option.some.injEq] at hd
              exact hd.symm
            · intro e' he'
              rw [he] at he'
              cases he'
              rfl
          · exact ihmem a ha

/-- C7: transport delivery makes at most 5 attempts; the backoff delay equals
`min(1000·2^(attempt−1), 5000)`, is non-decreasing across attempts and capped
at 5 seconds; and an attempt that fails with a stale-context error records a
content-script re-injection before the next retry. -/
theorem C7_transport_retry_bound (env : Nat → AttemptOutcome) :
    (BackgroundScript.sendMessageToTab env).2.length ≤ 5 ∧
    (∀ i, backoffDelay i ≤ backoffDelay (i + 1) ∧ backoffDelay i ≤ 5000) ∧
    (∀ a ∈ (BackgroundScript.sendMessageToTab env).2,
       ∀ d, a.delayAfter = some d → d = backoffDelay a.index ∧ d ≤ 5000) ∧
    (∀ a ∈ (BackgroundScript.sendMessageToTab env).2,
       ∀ e, env a.index = AttemptOutcome.err e → a.reinjected = isCacheError e) := by
  obtain ⟨hlen, hmem⟩ := sendMessageAttempts_spec env 5 1
  refine ⟨hlen, ?_, ?_, ?_⟩
  · intro i
    constructor
    · unfold backoffDelay
      have h2 : 1000 * 2 ^ (i - 1) ≤ 1000 * 2 ^ (i + 1 - 1) :=
        Nat.mul_le_mul_left _ (Nat.pow_le_pow_right (by norm_num) (by omega))
      exact min_le_min h2 le_rfl
    · exact Nat.min_le_right _ _
  · intro a ha d hd
    have := (hmem a ha).1 d hd
    exact ⟨this, this ▸ Nat.min_le_right _ _⟩
  · intro a ha e he
    exact (hmem a ha).2 e he

/-- Witness for C7 on a concrete environment whose first attempt fails with a
back/forward-cache error: the recorded delay is the base 1000 ms and the
failing attempt records a re-injection. -/
theorem C7_transport_retry_bound_witness :
    (1000 = backoffDelay attemptC7.index) ∧
    attemptC7.reinjected = isCacheError "page in back/forward cache" :=
  ⟨((C7_transport_retry_bound envC7).2.2.1 attemptC7 (by decide) 1000 rfl).1,
   (C7_transport_retry_bound envC7).2.2.2 attemptC7 (by decide)
     "page in back/forward cache" rfl⟩

/-! ## Theorems for the think-step claims -/

/-- C5: when the oracle response carries no structured decision, `think`
substitutes the fallback decision — read-text (`extract_text`) on the whole
document (`body`) — and never throws, so the non-compliance cannot terminate
the task as a failure; when the fallback is not itself flagged as repeating,
it is returned unchanged. -/
theorem C5_fallback_decision (s : AgentState) :
    (∃ st d, (AIAgent.think s (OracleResponse.success none)).2 = Except.ok (st, d)) ∧
    fallbackDecision.action = "extract_text" ∧
    fallbackDecision.target = some "body" ∧
    (s.isRepeatingAction fallbackDecision = false →
      (AIAgent.think s (OracleResponse.success none)).2 =
        Except.ok (s.recordAction fallbackDecision, fallbackDecision)) := by
  refine ⟨?_, rfl, rfl, ?_⟩
  · simp only [AIAgent.think]
    by_cases h : s.isRepeatingAction fallbackDecision
    · rw [if_pos h]
      exact ⟨_, _, rfl⟩
    · rw [if_neg h]
      exact ⟨_, _, rfl⟩
  · intro h
    simp only [AIAgent.think, h]
    rw [if_neg (by simp [h])]

/-- Witness for C5 on a fresh task state, where the fallback is not
repeating. -/
theorem C5_fallback_decision_witness :
    (AIAgent.think (initialState "goal") (OracleResponse.success none)).2 =
      Except.ok ((initialState "goal").recordAction fallbackDecision, fallbackDecision) :=
  (C5_fallback_decision (initialState "goal")).2.2.2 (by decide)

/-- C2 counterexample: a proposed `type` decision identical to the
immediately preceding one is detected as repeating, yet `think` returns it
unchanged — the guard does not rewrite it into a different action kind,
refuting the claim for arbitrary action kinds. -/
theorem C2_repeated_type_not_rewritten_counterexample :
    sC2.isRepeatingAction dC2 = true ∧ dC2.action = "type" ∧
    (AIAgent.think sC2 (OracleResponse.success (some ⟨"browser_action", dC2⟩))).2 =
      Except.ok (sC2.recordAction dC2, dC2) := by
  refine ⟨by decide, rfl, rfl⟩

/-- C2 (amended): a proposed decision matching the immediately preceding one
or any of the last two recorded is rewritten by the guard before execution:
a repeated `open` or `click` becomes `extract_text` on the whole document and
a repeated `extract_text` becomes `finish` — each a strictly different action
kind — while repeated decisions of any other kind are left unchanged. -/
theorem C2_loop_guard_rewrite (s : AgentState) (d : Decision)
    (tus : List AgentUpdate) (st : AgentState) (d₂ : Decision)
    (htrig :
      (∃ la, s.lastAction = some la ∧ la.action = d.action ∧ la.target = d.target) ∨
      (∃ a ∈ s.actionHistory.drop (s.actionHistory.length - 2),
         a.action = d.action ∧ a.target = d.target))
    (hth : AIAgent.think s (OracleResponse.success (some ⟨"browser_action", d⟩)) =
      (tus, Except.ok (st, d₂))) :
    d₂ = loopGuardRewrite d ∧
    (d.action = "open" ∨ d.action = "click" →
      d₂.action = "extract_text" ∧ d₂.target = some "body" ∧ d₂.action ≠ d.action) ∧
    (d.action = "extract_text" → d₂.action = "finish" ∧ d₂.action ≠ d.action) ∧
    (d.action ≠ "open" → d.action ≠ "click" → d.action ≠ "extract_text" → d₂ = d) := by
  have hrep : s.isRepeatingAction d = true := by
    rcases htrig with ⟨la, hla, ha, ht⟩ | ⟨a, hmem, ha, ht⟩
    · simp [AgentState.isRepeatingAction, hla, sameActionAndTarget, ha, ht]
    · have hpa : sameActionAndTarget a d = true := by
        simp [sameActionAndTarget, ha, ht]
      have hmemf : a ∈ (s.actionHistory.drop (s.actionHistory.length - 2)).filter
          (fun a => sameActionAndTarget a d) :=
        List.mem_filter.mpr ⟨hmem, hpa⟩
      have : 0 < ((s.actionHistory.drop (s.actionHistory.length - 2)).filter
          (fun a => sameActionAndTarget a d)).length :=
        List.length_pos.mpr (List.ne_nil_of_mem hmemf)
      simp [AgentState.isRepeatingAction]
      omega
  have hd₂ : d₂ = loopGuardRewrite d := by
    simp only [AIAgent.think, beq_self_eq_true, if_true, hrep,
      Prod.mk.injEq, Except.ok.injEq] at hth
    exact (hth.2.2).symm
  subst hd₂
  refine ⟨rfl, ?_, ?_, ?_⟩
  · rintro (h | h) <;> simp [loopGuardRewrite, h]
  · intro h
    simp [loopGuardRewrite, h]
  · intro h1 h2 h3
    simp [loopGuardRewrite, h1, h2, h3]

/-- Witness for C2 (amended) on a repeated `open` decision: the guard
rewrites it to `extract_text` on `body`. -/
theorem C2_loop_guard_rewrite_witness :
    (loopGuardRewrite dC2w).action = "extract_text" ∧
    (loopGuardRewrite dC2w).target = some "body" ∧
    (loopGuardRewrite dC2w).action ≠ dC2w.action :=
  (C2_loop_guard_rewrite sC2w dC2w tusC2w
      (sC2w.recordAction (loopGuardRewrite dC2w)) (loopGuardRewrite dC2w)
      (Or.inl ⟨laC2w, rfl, rfl, rfl⟩) rfl).2.1 (Or.inl rfl)

/-! ## Theorems for the observe-step claims -/

/-- C4 counterexample: with one prior consecutive failure and a submit-like
click as the previous action, a timed-out failed result leaves the counter at
1 — a failed ActionResult that does not increment the counter. -/
theorem C4_timeout_failure_no_increment_counterexample :
    rTimeoutFail.success = false ∧
    (submitClickState 1).consecutiveFailures = 1 ∧
    ((submitClickState 1).observe rTimeoutFail).1.consecutiveFailures = 1 := by
  refine ⟨rfl, rfl, by decide⟩

/-- C4 (amended): a successful ActionResult resets the consecutive-failure
counter to 0; a failed ActionResult that is not a submit-click timeout
increments it; and whenever an observed failure leaves the counter at 2 or
more, the observation appends the directive steering the planner toward the
finish action to the transcript. -/
theorem C4_failure_budget (s : AgentState) (r : ActionResult) :
    (r.success = true → (s.observe r).1.consecutiveFailures = 0) ∧
    (r.success = false →
      ((match r.error with | some e => jsIncludes e "timeout" | none => false) &&
          isSubmitClick s.lastAction) = false →
      (s.observe r).1.consecutiveFailures = s.consecutiveFailures + 1) ∧
    (r.success = false → 2 ≤ (s.observe r).1.consecutiveFailures →
      (⟨"system", "Too many failures. Please use the finish action to complete what you can or explain what went wrong."⟩ : ChatMessage)
        ∈ (s.observe r).1.conversationHistory) := by
  refine ⟨?_, ?_, ?_⟩
  · intro h
    simp [AgentState.observe, h]
  · intro h hc
    simp [AgentState.observe, h, hc]
  · intro h h2
    simp only [AgentState.observe, h] at h2 ⊢
    simp only [Bool.false_eq_true, if_false] at h2 ⊢
    rw [if_pos h2]
    simp

/-- Witness for C4 (amended): a success resets the counter to 0 even after
two failures. -/
theorem C4_failure_budget_witness :
    ((submitClickState 2).observe rSuccessC4).1.consecutiveFailures = 0 :=
  (C4_failure_budget (submitClickState 2) rSuccessC4).1 rfl

/-- C6 counterexample: with no prior consecutive failures, a submit-click
timeout leaves the counter at 1 — the same value an ordinary failure
produces, so the resulting counter is not lower than an ordinary failure
would produce. -/
theorem C6_timeout_not_lower_counterexample :
    (submitClickState 0).consecutiveFailures = 0 ∧
    ((submitClickState 0).observe rTimeoutFail).1.consecutiveFailures = 1 ∧
    ((submitClickState 0).observe rPlainFail).1.consecutiveFailures = 1 := by
  refine ⟨rfl, by decide, by decide⟩

/-- C6 (amended): when the prior action was a click on a submit-like target
and the result is a timeout failure, the observation sets the counter to
`(c − 1) + 1` — strictly lower than the ordinary-failure value `c + 1`
whenever `c ≥ 1` (and equal to it only when `c = 0`) — and injects the
instruction telling the planner to verify the outcome by extracting page
content rather than retrying the click. -/
theorem C6_timeout_heuristic (s : AgentState) (r : ActionResult) (e t : String)
    (la : ActionRecord)
    (hfail : r.success = false) (herr : r.error = some e)
    (htime : jsIncludes e "timeout" = true)
    (hla : s.lastAction = some la) (hclick : la.action = "click")
    (htgt : la.target = some t) (hsub : jsIncludes t "submit" = true) :
    (s.observe r).1.consecutiveFailures = (s.consecutiveFailures - 1) + 1 ∧
    (1 ≤ s.consecutiveFailures →
      (s.observe r).1.consecutiveFailures < s.consecutiveFailures + 1) ∧
    (⟨"system", "Search button click timed out, but this often means the search was submitted successfully. Extract the page content to see if search results are displayed."⟩ : ChatMessage)
      ∈ (s.observe r).1.conversationHistory := by
  have hts : ((match r.error with | some e => jsIncludes e "timeout" | none => false) &&
      isSubmitClick s.lastAction) = true := by
    simp [herr, htime, isSubmitClick, hla, hclick, htgt, hsub]
  refine ⟨?_, ?_, ?_⟩
  · simp [AgentState.observe, hfail, hts]
  · intro h1
    simp only [AgentState.observe, hfail]
    simp only [Bool.false_eq_true, if_false, hts, if_true]
    omega
  · simp [AgentState.observe, hfail, hts]

/-- Witness for C6 (amended) at two prior consecutive failures: the counter
lands at 2, strictly below the ordinary-failure value 3. -/
theorem C6_timeout_heuristic_witness :
    ((submitClickState 2).observe rTimeoutFail).1.consecutiveFailures
      = ((2 : Nat) - 1) + 1 ∧
    ((submitClickState 2).observe rTimeoutFail).1.consecutiveFailures < 2 + 1 :=
  ⟨(C6_timeout_heuristic (submitClickState 2) rTimeoutFail
      "Action timeout after 10 seconds" "button[type=submit]" laSubmit
      rfl rfl (by decide) rfl rfl rfl (by decide)).1,
   (C6_timeout_heuristic (submitClickState 2) rTimeoutFail
      "Action timeout after 10 seconds" "button[type=submit]" laSubmit
      rfl rfl (by decide) rfl rfl rfl (by decide)).2.1 (by decide)⟩

/-! ## Theorems for the loop claims -/

/-- A loop-run specification for one more iteration follows from the
specification of the run continuing from the post-step state, provided the
step incremented the counter by exactly one and preserved the lifecycle
fields. -/
theorem LoopRunSpec.step {fuel : Nat} {s sNext : AgentState}
    {out : AgentState × List AgentUpdate × Nat} (pre : List AgentUpdate)
    (h : LoopRunSpec fuel sNext out)
    (hstep : sNext.stepCount = s.stepCount + 1)
    (hms : sNext.maxSteps = s.maxSteps)
    (hrun2 : sNext.isRunning = true)
    (hlt : s.stepCount < s.maxSteps) :
    LoopRunSpec (fuel + 1) s (out.1, pre ++ out.2.1, out.2.2 + 1) := by
  obtain ⟨h1, h2, h3, h4⟩ := h
  obtain ⟨h4a, h4b⟩ := h4 hrun2
  unfold LoopRunSpec
  refine ⟨?_, ?_, ?_, ?_⟩
  · show out.2.2 + 1 ≤ fuel + 1
    omega
  · show out.1.maxSteps = s.maxSteps
    rw [h2, hms]
  · intro hb
    show out.1.stepCount ≤ s.maxSteps
    have := h3 (by omega)
    omega
  · intro hrun
    constructor
    · intro hout
      obtain ⟨ha, hb⟩ := h4a hout
      constructor
      · show out.1.stepCount = s.stepCount + (out.2.2 + 1)
        omega
      · rcases hb with hb | hb
        · exact Or.inl (show out.2.2 + 1 = fuel + 1 by omega)
        · exact Or.inr (show s.maxSteps ≤ out.1.stepCount by omega)
    · intro hout
      obtain ⟨hc1, hc2, hc3, hc4, hc5, us₀, hus⟩ := h4b hout
      refine ⟨hc1, hc2, hc3, hc4, hc5, pre ++ us₀, ?_⟩
      show pre ++ out.2.1 = pre ++ us₀ ++ [taskAbortedUpdate]
      rw [hus, List.append_assoc]

/-- Every run of the while loop satisfies its run specification: iterations
are bounded by the budget, `maxSteps` is untouched, the step counter stays
within the budget, the loop exits only through its guard or the budget, and
a stopped exit leaves the state cleared with `task_aborted` emitted last. -/
theorem agentLoopWhile_spec (env : Nat → StepInput) :
    ∀ (fuel : Nat) (s : AgentState),
      LoopRunSpec fuel s (AIAgent.agentLoopWhile env fuel s) := by
  intro fuel
  induction fuel with
  | zero =>
    intro s
    show LoopRunSpec 0 s (s, [], 0)
    unfold LoopRunSpec
    refine ⟨Nat.le_refl 0, rfl, fun h => h, fun hrun => ⟨fun _ => ⟨rfl, Or.inl rfl⟩,
      fun hstop => ?_⟩⟩
    have : s.isRunning = false := hstop
    rw [hrun] at this
    exact absurd this (by simp)
  | succ fuel ih =>
    intro s
    by_cases hg : s.isRunning = true ∧ s.stepCount < s.maxSteps
    · obtain ⟨hrun, hlt⟩ := hg
      simp only [AIAgent.agentLoopWhile]
      rw [if_pos ⟨hrun, hlt⟩]
      split
      next tus e heq =>
        exact LoopRunSpec.step _ (ih _) (by simp) (by simp) (by simp [hrun]) hlt
      next tus st d heq =>
        have hst := think_ok_state heq
        by_cases hfin : (d.action == "finish") = true
        · rw [if_pos hfin]
          unfold LoopRunSpec
          refine ⟨show (1 : Nat) ≤ fuel + 1 by omega, ?_, ?_, ?_⟩
          · show (AgentState.stopTask st).1.maxSteps = s.maxSteps
            simp [AgentState.stopTask, hst.2.1]
          · intro hb
            show (AgentState.stopTask st).1.stepCount ≤ s.maxSteps
            simp [AgentState.stopTask]
          · intro _
            constructor
            · intro hout
              simp [AgentState.stopTask] at hout
            · intro _
              refine ⟨by simp [AgentState.stopTask], by simp [AgentState.stopTask],
                by simp [AgentState.stopTask], by simp [AgentState.stopTask],
                by simp [AgentState.stopTask],
                tus ++ [⟨"system", "✅ Task completed: " ++ d.summary.getD "undefined"⟩], ?_⟩
              show tus ++ [_, (AgentState.stopTask st).2] = _ ++ [taskAbortedUpdate]
              simp [AgentState.stopTask]
        · rw [if_neg hfin]
          split
          next aus e heq2 =>
            refine LoopRunSpec.step _ (ih _) ?_ ?_ ?_ hlt
            · show ({ st with conversationHistory := st.conversationHistory ++ [stepErrorMessage e] } : AgentState).stepCount = s.stepCount + 1
              simp [hst.1]
            · show ({ st with conversationHistory := st.conversationHistory ++ [stepErrorMessage e] } : AgentState).maxSteps = s.maxSteps
              simp [hst.2.1]
            · show ({ st with conversationHistory := st.conversationHistory ++ [stepErrorMessage e] } : AgentState).isRunning = true
              simp [hst.2.2.1, hrun]
          next aus actionResult heq2 =>
            have hob := observe_state st actionResult
            refine LoopRunSpec.step _ (ih _) ?_ ?_ ?_ hlt
            · rw [hob.1, hst.1]
            · rw [hob.2.1, hst.2.1]
            · rw [hob.2.2.1, hst.2.2.1]
              exact hrun
    · simp only [AIAgent.agentLoopWhile]
      rw [if_neg hg]
      unfold LoopRunSpec
      refine ⟨Nat.zero_le _, rfl, fun h => h, fun hrun => ⟨fun _ => ⟨rfl, Or.inr ?_⟩,
        fun hstop => ?_⟩⟩
      · rcases Nat.lt_or_ge s.stepCount s.maxSteps with hlt | hge
        · exact absurd ⟨hrun, hlt⟩ hg
        · exact hge
      · have : s.isRunning = false := hstop
        rw [hrun] at this
        exact absurd this (by simp)

/-- Every task run from `startTask` performs at most 10 iterations, ends with
the state stopped and cleared, emits `task_aborted` last, keeps the step
counter within the budget, and emits the maximum-steps update whenever the
while loop exited with the budget exhausted. -/
theorem startTask_spec (env : Nat → StepInput) (prompt : String) :
    (AIAgent.startTask prompt env).2.2 ≤ 10 ∧
    (AIAgent.startTask prompt env).1.isRunning = false ∧
    (AIAgent.startTask prompt env).1.currentTask = none ∧
    (AIAgent.startTask prompt env).1.stepCount = 0 ∧
    (AIAgent.startTask prompt env).1.lastAction = none ∧
    (AIAgent.startTask prompt env).1.actionHistory = [] ∧
    (AIAgent.startTask prompt env).1.consecutiveFailures = 0 ∧
    (∃ us₀, (AIAgent.startTask prompt env).2.1 = us₀ ++ [taskAbortedUpdate]) ∧
    (AIAgent.agentLoopWhile env 10 (initialState prompt)).1.stepCount ≤ 10 ∧
    (10 ≤ (AIAgent.agentLoopWhile env 10 (initialState prompt)).1.stepCount →
      maxStepsUpdate ∈ (AIAgent.startTask prompt env).2.1) := by
  obtain ⟨h1, h2, h3, h4⟩ := agentLoopWhile_spec env 10 (initialState prompt)
  have hms : (AIAgent.agentLoopWhile env 10 (initialState prompt)).1.maxSteps = 10 := h2
  have hb : (AIAgent.agentLoopWhile env 10 (initialState prompt)).1.stepCount ≤ 10 :=
    h3 (Nat.zero_le 10)
  obtain ⟨h4a, h4b⟩ := h4 rfl
  have hr0 : AIAgent.startTask prompt env =
      ((if (AIAgent.agentLoopWhile env 10 (initialState prompt)).1.maxSteps ≤
             (AIAgent.agentLoopWhile env 10 (initialState prompt)).1.stepCount then
          ((AIAgent.agentLoopWhile env 10 (initialState prompt)).1.stopTask.1,
           (AIAgent.agentLoopWhile env 10 (initialState prompt)).2.1 ++
             [maxStepsUpdate, (AIAgent.agentLoopWhile env 10 (initialState prompt)).1.stopTask.2],
           (AIAgent.agentLoopWhile env 10 (initialState prompt)).2.2)
        else AIAgent.agentLoopWhile env 10 (initialState prompt)).1,
       taskStartedUpdate prompt ::
         (if (AIAgent.agentLoopWhile env 10 (initialState prompt)).1.maxSteps ≤
               (AIAgent.agentLoopWhile env 10 (initialState prompt)).1.stepCount then
            ((AIAgent.agentLoopWhile env 10 (initialState prompt)).1.stopTask.1,
             (AIAgent.agentLoopWhile env 10 (initialState prompt)).2.1 ++
               [maxStepsUpdate, (AIAgent.agentLoopWhile env 10 (initialState prompt)).1.stopTask.2],
             (AIAgent.agentLoopWhile env 10 (initialState prompt)).2.2)
          else AIAgent.agentLoopWhile env 10 (initialState prompt)).2.1,
       (if (AIAgent.agentLoopWhile env 10 (initialState prompt)).1.maxSteps ≤
             (AIAgent.agentLoopWhile env 10 (initialState prompt)).1.stepCount then
          ((AIAgent.agentLoopWhile env 10 (initialState prompt)).1.stopTask.1,
           (AIAgent.agentLoopWhile env 10 (initialState prompt)).2.1 ++
             [maxStepsUpdate, (AIAgent.agentLoopWhile env 10 (initialState prompt)).1.stopTask.2],
           (AIAgent.agentLoopWhile env 10 (initialState prompt)).2.2)
        else AIAgent.agentLoopWhile env 10 (initialState prompt)).2.2) := rfl
  by_cases hcase : (AIAgent.agentLoopWhile env 10 (initialState prompt)).1.isRunning = true
  · obtain ⟨ha, hd⟩ := h4a hcase
    have ha' : (AIAgent.agentLoopWhile env 10 (initialState prompt)).1.stepCount =
        0 + (AIAgent.agentLoopWhile env 10 (initialState prompt)).2.2 := ha
    have hd' : (AIAgent.agentLoopWhile env 10 (initialState prompt)).2.2 = 10 ∨
        10 ≤ (AIAgent.agentLoopWhile env 10 (initialState prompt)).1.stepCount := hd
    have hcond : (AIAgent.agentLoopWhile env 10 (initialState prompt)).1.maxSteps ≤
        (AIAgent.agentLoopWhile env 10 (initialState prompt)).1.stepCount := by omega
    rw [if_pos hcond] at hr0
    rw [hr0]
    refine ⟨h1, by simp [AgentState.stopTask], by simp [AgentState.stopTask],
      by simp [AgentState.stopTask], by simp [AgentState.stopTask],
      by simp [AgentState.stopTask], by simp [AgentState.stopTask], ?_, hb, ?_⟩
    · refine ⟨taskStartedUpdate prompt ::
        ((AIAgent.agentLoopWhile env 10 (initialState prompt)).2.1 ++ [maxStepsUpdate]), ?_⟩
      simp [AgentState.stopTask]
    · intro _
      simp
  · have hfalse : (AIAgent.agentLoopWhile env 10 (initialState prompt)).1.isRunning = false := by
      cases hw : (AIAgent.agentLoopWhile env 10 (initialState prompt)).1.isRunning
      · rfl
      · exact absurd hw hcase
    obtain ⟨hc1, hc2, hc3, hc4, hc5, us₀, hus⟩ := h4b hfalse
    have hcond : ¬ ((AIAgent.agentLoopWhile env 10 (initialState prompt)).1.maxSteps ≤
        (AIAgent.agentLoopWhile env 10 (initialState prompt)).1.stepCount) := by omega
    rw [if_neg hcond] at hr0
    rw [hr0]
    refine ⟨h1, hfalse, hc1, hc2, hc3, hc4, hc5, ?_, hb, ?_⟩
    · refine ⟨taskStartedUpdate prompt :: us₀, ?_⟩
      simp [hus]
    · intro hcontra
      omega

/-- C1: for every goal and every oracle/environment behaviour, the control
loop performs at most 10 THINK→ACT→OBSERVE iterations, the step counter
never exceeds `maxSteps` (10 by default), the task always reaches a terminal
(stopped) state, and whenever the while loop exits with the budget exhausted
— which is exactly the no-finish exit, since a finish resets the counter —
the maximum-steps message is emitted. -/
theorem C1_step_budget_termination (env : Nat → StepInput) (prompt : String) :
    (AIAgent.startTask prompt env).2.2 ≤ 10 ∧
    (AIAgent.agentLoopWhile env 10 (initialState prompt)).1.stepCount ≤ 10 ∧
    (AIAgent.startTask prompt env).1.isRunning = false ∧
    (10 ≤ (AIAgent.agentLoopWhile env 10 (initialState prompt)).1.stepCount →
      maxStepsUpdate ∈ (AIAgent.startTask prompt env).2.1) := by
  obtain ⟨p1, p2, -, -, -, -, -, -, p9, p10⟩ := startTask_spec env prompt
  exact ⟨p1, p9, p2, p10⟩

/-- Witness for C1 on an oracle that always fails the chat call: the loop
exhausts all 10 steps and the maximum-steps message is emitted. -/
theorem C1_step_budget_termination_witness :
    maxStepsUpdate ∈ (AIAgent.startTask "goal" envC1).2.1 :=
  (C1_step_budget_termination envC1 "goal").2.2.2 (by decide)

/-- C3 counterexample: on a run whose very first THINK returns a finish
decision, the emitted event types are exactly `task_started`, `thinking`,
`thinking`, `system`, `task_aborted` — the completion message is emitted
with type `system`, and no event of type `task_completed` is ever emitted. -/
theorem C3_no_task_completed_event_counterexample :
    ((AIAgent.startTask "Read the page" envC3).2.1.map AgentUpdate.type) =
      ["task_started", "thinking", "thinking", "system", "task_aborted"] ∧
    (∀ u ∈ (AIAgent.startTask "Read the page" envC3).2.1, u.type ≠ "task_completed") ∧
    (AIAgent.startTask "Read the page" envC3).2.2 = 1 := by
  refine ⟨by decide, by decide, by decide⟩

/-- C3 (amended): when a THINK step returns a finish decision, the agent
emits an event of type `system` whose message is the completion summary
prefixed by a task-completed marker, and then stops the task via `stopTask`,
whose event has type `task_aborted`; the final state is no longer running. -/
theorem C3_finish_emits_system_completed (env : Nat → StepInput) (fuel : Nat)
    (s : AgentState) (tus : List AgentUpdate) (st : AgentState) (d : Decision)
    (hrun : s.isRunning = true) (hstep : s.stepCount < s.maxSteps)
    (hth : AIAgent.think { s with stepCount := s.stepCount + 1 } (env s.stepCount).oracle
      = (tus, Except.ok (st, d)))
    (hfin : d.action = "finish") :
    AIAgent.agentLoopWhile env (fuel + 1) s =
      (st.stopTask.1,
       tus ++ [⟨"system", "✅ Task completed: " ++ d.summary.getD "undefined"⟩, st.stopTask.2],
       1) ∧
    st.stopTask.2.type = "task_aborted" ∧
    st.stopTask.1.isRunning = false := by
  refine ⟨?_, rfl, rfl⟩
  simp only [AIAgent.agentLoopWhile]
  rw [if_pos ⟨hrun, hstep⟩, hth]
  simp [hfin, AgentState.stopTask]

/-- Witness for C3 (amended) on the immediate-finish oracle. -/
theorem C3_finish_emits_system_completed_witness :
    AIAgent.agentLoopWhile envC3 (9 + 1) (initialState "Read the page") =
      (stC3.stopTask.1,
       tusC3 ++ [⟨"system", "✅ Task completed: " ++ dFinishC3.summary.getD "undefined"⟩,
         stC3.stopTask.2],
       1) ∧
    stC3.stopTask.2.type = "task_aborted" ∧
    stC3.stopTask.1.isRunning = false :=
  C3_finish_emits_system_completed envC3 9 (initialState "Read the page")
    tusC3 stC3 dFinishC3 rfl (by decide) rfl rfl

/-- C9: `stopTask` unconditionally clears the task state (current task, step
counter, last action, action history, failure counter) and emits the
`task_aborted` update; and every run of a task — whatever the oracle and
environment do, so in particular on finish and on budget exhaustion — ends
with the state cleared and the `task_aborted` event emitted as the very last
event. -/
theorem C9_every_terminal_path_aborts (env : Nat → StepInput) (prompt : String) :
    (∀ s : AgentState,
       s.stopTask.1.isRunning = false ∧ s.stopTask.1.currentTask = none ∧
       s.stopTask.1.stepCount = 0 ∧ s.stopTask.1.lastAction = none ∧
       s.stopTask.1.actionHistory = [] ∧ s.stopTask.1.consecutiveFailures = 0 ∧
       s.stopTask.2.type = "task_aborted") ∧
    (∃ us₀, (AIAgent.startTask prompt env).2.1 = us₀ ++ [taskAbortedUpdate]) ∧
    (AIAgent.startTask prompt env).1.isRunning = false ∧
    (AIAgent.startTask prompt env).1.currentTask = none ∧
    (AIAgent.startTask prompt env).1.stepCount = 0 ∧
    (AIAgent.startTask prompt env).1.actionHistory = [] ∧
    (AIAgent.startTask prompt env).1.consecutiveFailures = 0 := by
  obtain ⟨-, p2, p3, p4, -, p6, p7, p8, -, -⟩ := startTask_spec env prompt
  exact ⟨fun s => ⟨rfl, rfl, rfl, rfl, rfl, rfl, rfl⟩, p8, p2, p3, p4, p6, p7⟩

end Hobbs
